import Mathlib

/-!
Verification development for the FlightSimulator game core
(FlightSimulator.ts, MobileControls.ts).

The per-frame simulation state and the update pipeline are embedded
shallowly over exact rationals.  Quantities that the source computes with
transcendental functions or ambient randomness (the quaternion-rotated
forward vector, Math.random draws, Math.sin oscillations, the bounding-box
collision radius, the normalized knock-back vector, Math.PI / 3) are passed
in as explicit per-frame oracle inputs in `FrameEnv`; every arithmetic
operation on them is translated literally from the source.  The weather
target function, which is a pure closed-form sine expression, is embedded
separately over the reals.
-/

/-- Exact 3D vector over the rationals, standing for THREE.Vector3. -/
structure Vec3 where
  x : ℚ
  y : ℚ
  z : ℚ
deriving DecidableEq, Repr

/-- Componentwise addition, as in Vector3.add. -/
def Vec3.add (a b : Vec3) : Vec3 := ⟨a.x + b.x, a.y + b.y, a.z + b.z⟩

/-- Scalar multiple, as in Vector3.multiplyScalar. -/
def Vec3.smul (a : Vec3) (c : ℚ) : Vec3 := ⟨a.x * c, a.y * c, a.z * c⟩

/-- Squared Euclidean norm.  The source compares Vector3.length() with a
bound; since both sides are nonnegative the comparison is embedded as the
equivalent comparison of squares, which is exact over the rationals. -/
def Vec3.normSq (a : Vec3) : ℚ := a.x * a.x + a.y * a.y + a.z * a.z

/-- Squared distance between two points, the exact counterpart of the
comparison made with Vector3.distanceTo. -/
def Vec3.distSq (a b : Vec3) : ℚ :=
  (a.x - b.x) * (a.x - b.x) + (a.y - b.y) * (a.y - b.y) +
    (a.z - b.z) * (a.z - b.z)

/-- One projectile: a mesh position plus the velocity attached at spawn
time (bullet.velocity, FlightSimulator.ts line 440). -/
structure Bullet where
  pos : Vec3
  vel : Vec3
deriving DecidableEq, Repr

/-- One target balloon: its position plus the optional patrol velocity that
only hard difficulty assigns (balloon.userData.velocity). -/
structure Balloon where
  pos : Vec3
  vel : Option Vec3
deriving DecidableEq, Repr

/-- Mutable fields of the FlightSimulator class that the game core reads or
writes (lines 12-44), restricted to the simulation state; renderer, HUD and
sound handles are external collaborators.  respawns counts the balloon
respawn callbacks scheduled with setTimeout and not yet run. -/
structure SimState where
  pos : Vec3
  rot : Vec3
  speed : ℚ
  pitch : ℚ
  roll : ℚ
  yaw : ℚ
  altitude : ℚ
  health : ℚ
  isGameOver : Bool
  score : ℤ
  bullets : List Bullet
  balloons : List Balloon
  obstacles : List Vec3
  weatherIntensity : ℚ
  lastShot : ℚ
  startTime : ℚ
  elapsedTime : ℚ
  respawns : ℕ
deriving DecidableEq, Repr

/-- Per-frame inputs: the pressed keys and shooting flag, the wall clock,
and the oracle values for every transcendental or random quantity the frame
consumes.  dir is the canonical forward vector (0, 0, -1) rotated by the
airplane quaternion (lines 367-368); newRot the Euler rotation written by
lines 362-365; randX and randY the two Math.random() - 0.5 draws of lines
374-375; pi3 the pitch and roll bound Math.PI / 3; collisionRadius the
bounding-box radius times 1.5 of line 787; push the normalized separation
vector times 20 of lines 809-812; newWeather the sine-driven target
intensity of line 758; oscillY the Math.sin(Date.now() * 0.001) * 0.01
term of line 656. -/
structure FrameEnv where
  keyW : Bool
  keyS : Bool
  keyUp : Bool
  keyDown : Bool
  keyLeft : Bool
  keyRight : Bool
  isShooting : Bool
  now : ℚ
  dir : Vec3
  newRot : Vec3
  randX : ℚ
  randY : ℚ
  pi3 : ℚ
  collisionRadius : ℚ
  push : Vec3
  newWeather : ℚ
  oscillY : ℚ
deriving DecidableEq, Repr

/-- maxSpeed, line 18. -/
def maxSpeed : ℚ := 3

/-- minSpeed, line 19. -/
def minSpeed : ℚ := 0.5

/-- initialPosition, line 23. -/
def initialPosition : Vec3 := ⟨0, 2, 50⟩

/-- initialRotation, line 24. -/
def initialRot : Vec3 := ⟨0, 0, 0⟩

/-- Throttle handling, updateFlight lines 327-334: key w accelerates by
0.05 up to maxSpeed, key s brakes by 0.05 down to 0, no input keeps the
speed constant. -/
def throttleStep (keyW keyS : Bool) (s : ℚ) : ℚ :=
  if keyW then min (s + 0.05) maxSpeed
  else if keyS then max (s - 0.05) 0
  else s

/-- Minimum-speed constraint, lines 337-339: a positive speed below
minSpeed snaps up to minSpeed. -/
def minSpeedClamp (s : ℚ) : ℚ :=
  if 0 < s ∧ s < minSpeed then minSpeed else s

/-- Weather speed penalty, lines 342-344: above intensity 0.5 the speed is
scaled by (1 - intensity * 0.01). -/
def weatherPenalty (wi s : ℚ) : ℚ :=
  if 0.5 < wi then s * (1 - wi * 0.01) else s

/-- Speed after the three speed updates of updateFlight (lines 327-344),
in source order: throttle, minimum-speed clamp, weather penalty. -/
def speedAfterWeather (env : FrameEnv) (st : SimState) : ℚ :=
  weatherPenalty st.weatherIntensity
    (minSpeedClamp (throttleStep env.keyW env.keyS st.speed))

/-- Pitch input, lines 346-350: arrows adjust pitch by 0.02 clamped to
plus or minus pi / 3 (the bound is the oracle pi3). -/
def pitchStep (env : FrameEnv) (p : ℚ) : ℚ :=
  if env.keyUp then min (p + 0.02) env.pi3
  else if env.keyDown then max (p - 0.02) (-env.pi3)
  else p

/-- Roll and yaw input, lines 352-360: left and right arrows adjust roll by
0.02 within the same bound while accumulating yaw by 0.01; with no input
the roll decays by the factor 0.95. -/
def rollYawStep (env : FrameEnv) (r y : ℚ) : ℚ × ℚ :=
  if env.keyLeft then (min (r + 0.02) env.pi3, y + 0.01)
  else if env.keyRight then (max (r - 0.02) (-env.pi3), y - 0.01)
  else (r * 0.95, y)

/-- Motion direction of the frame, lines 367-376: the rotated forward
vector dir gets the lift max 0 (speed * 0.02) added to its y component,
and, when the weather intensity exceeds 0.5, the two random perturbations
scaled by 0.1 * intensity added to x and y. -/
def flightDir (env : FrameEnv) (st : SimState) : Vec3 :=
  let s := speedAfterWeather env st
  let lift := max 0 (s * 0.02)
  let dy := env.dir.y + lift
  if 0.5 < st.weatherIntensity then
    ⟨env.dir.x + env.randX * 0.1 * st.weatherIntensity,
      dy + env.randY * 0.1 * st.weatherIntensity, env.dir.z⟩
  else ⟨env.dir.x, dy, env.dir.z⟩

/-- Position reached by line 378: the old position plus the frame direction
scaled by the updated speed. -/
def movedPos (env : FrameEnv) (st : SimState) : Vec3 :=
  st.pos.add ((flightDir env st).smul (speedAfterWeather env st))

/-- Result of the ground-contact block. -/
structure GroundRes where
  pos : Vec3
  speed : ℚ
  health : ℚ
  over : Bool
deriving DecidableEq, Repr

/-- Ground contact, lines 380-392: when the new altitude is below 0.5 the
y position is clamped to 0.5 and the speed loses 0.1 floored at 0; if the
speed after that loss still exceeds 1 the health drops by 10 and, when the
resulting health is at most 0, the game ends.  over reports whether this
block triggered game over (isGameOver is false on entry, line 324). -/
def groundStep (p : Vec3) (s h : ℚ) : GroundRes :=
  if p.y < 0.5 then
    let s2 := max 0 (s - 0.1)
    if 1 < s2 then
      ⟨⟨p.x, 0.5, p.z⟩, s2, h - 10, decide (h - 10 ≤ 0)⟩
    else ⟨⟨p.x, 0.5, p.z⟩, s2, h, false⟩
  else ⟨p, s, h, false⟩

/-- checkCollisions, lines 780-819: a no-op once the game is over;
otherwise the first obstacle whose distance to the airplane is below
collisionRadius + 10 costs 20 health (game over when health reaches 0),
pushes the airplane by the oracle vector push, scales the speed by 0.3 and
stops the scan.  The distance comparison is embedded through squares. -/
def checkCollisions (cr : ℚ) (push : Vec3) (st : SimState) : SimState :=
  if st.isGameOver then st
  else
    match st.obstacles.find? (fun o => decide (st.pos.distSq o < (cr + 10) * (cr + 10))) with
    | none => st
    | some _ =>
      { st with
        health := st.health - 20
        isGameOver := decide (st.health - 20 ≤ 0)
        pos := st.pos.add push
        speed := st.speed * 0.3 }

/-- setWeatherIntensity, lines 739-740: the stored intensity is the
argument clamped into [0, 1] (the fog and opacity writes are external). -/
def setWeatherIntensityQ (intensity : ℚ) (st : SimState) : SimState :=
  { st with weatherIntensity := max 0 (min 1 intensity) }

/-- updateWeather, lines 757-778, restricted to the simulation state: it
stores the clamped sine-driven target intensity (the raindrop and cloud
motion only touches render objects). -/
def updateWeatherQ (target : ℚ) (st : SimState) : SimState :=
  setWeatherIntensityQ target st

/-- Reverse scan of the balloons for the first one within hit distance 6 of
the point p, matching the inner loop of updateBullets (lines 493-525) that
walks j from the last index down and splices the hit balloon out.  Returns
the balloon list with the hit balloon removed, or none when no balloon is
within radius. -/
def hitScanRev (p : Vec3) : List Balloon → Option (List Balloon)
  | [] => none
  | bl :: rest =>
    match hitScanRev p rest with
    | some rest2 => some (bl :: rest2)
    | none => if p.distSq bl.pos < 36 then some rest else none

/-- Aggregate result of the projectile update loop. -/
structure BulletsRes where
  bullets : List Bullet
  balloons : List Balloon
  score : ℤ
  respawns : ℕ
deriving DecidableEq, Repr

/-- updateBullets, lines 482-527: bullets are walked from the last index
down (the head of the list is processed last, so the recursion handles the
tail first); each bullet advances by its velocity, is dropped when its
distance from the world origin exceeds 1000 (compared through squares:
length() > 1000), and otherwise scores 100, removes the first balloon in
reverse order within distance 6, and schedules one respawn, leaving the
loop for that bullet; a bullet that hits nothing is kept. -/
def updateBulletsAux : List Bullet → List Balloon → ℤ → ℕ → BulletsRes
  | [], bls, sc, rs => ⟨[], bls, sc, rs⟩
  | b :: rest, bls, sc, rs =>
    let r := updateBulletsAux rest bls sc rs
    let p := b.pos.add b.vel
    if 1000000 < p.normSq then
      ⟨r.bullets, r.balloons, r.score, r.respawns⟩
    else
      match hitScanRev p r.balloons with
      | some bls2 => ⟨r.bullets, bls2, r.score + 100, r.respawns + 1⟩
      | none => ⟨⟨p, b.vel⟩ :: r.bullets, r.balloons, r.score, r.respawns⟩

/-- updateBullets applied to the simulation state. -/
def updateBulletsTop (st : SimState) : SimState :=
  let r := updateBulletsAux st.bullets st.balloons st.score st.respawns
  { st with bullets := r.bullets, balloons := r.balloons,
            score := r.score, respawns := r.respawns }

/-- Advancing one bullet by its velocity (line 485). -/
def advanceBullet (b : Bullet) : Bullet := ⟨b.pos.add b.vel, b.vel⟩

/-- Intermediate state reached by the flight-model block of updateFlight
(lines 326-400): the speed pipeline, the orientation inputs, the
translation and the ground-contact block, before the checkCollisions,
updateWeather and updateBullets calls. -/
def flightMidState (env : FrameEnv) (st : SimState) : SimState :=
  { st with
    pos := (groundStep (movedPos env st) (speedAfterWeather env st) st.health).pos
    rot := env.newRot
    speed := (groundStep (movedPos env st) (speedAfterWeather env st) st.health).speed
    pitch := pitchStep env st.pitch
    roll := (rollYawStep env st.roll st.yaw).1
    yaw := (rollYawStep env st.roll st.yaw).2
    altitude := (movedPos env st).y
    health := (groundStep (movedPos env st) (speedAfterWeather env st) st.health).health
    isGameOver := (groundStep (movedPos env st) (speedAfterWeather env st) st.health).over }

/-- updateFlight, lines 323-407: a no-op once the game is over; otherwise
the speed pipeline, the orientation inputs, the translation and the
ground-contact block (flightMidState), then the calls to checkCollisions,
updateWeather and updateBullets (updateHUD and updateSpeedLines only touch
render objects, and the camera block lines 394-400 only moves the
camera). -/
def updateFlight (env : FrameEnv) (st : SimState) : SimState :=
  if st.isGameOver then st
  else
    updateBulletsTop (updateWeatherQ env.newWeather
      (checkCollisions env.collisionRadius env.push (flightMidState env st)))

/-- updateBalloons, lines 639-660: in hard difficulty each balloon that
carries a patrol velocity moves by it, reflects a velocity component when
the new position leaves the soft box (500 on x and z, 75 around height
125), then gets the sine oscillation oracle added to the y velocity; in
simple difficulty nothing happens. -/
def updateBalloon (oscillY : ℚ) (b : Balloon) : Balloon :=
  match b.vel with
  | none => b
  | some v =>
    let p := b.pos.add v
    let vx := if 500 < |p.x| then -v.x else v.x
    let vy := if 75 < |p.y - 125| then -v.y else v.y
    let vz := if 500 < |p.z| then -v.z else v.z
    ⟨p, some ⟨vx, vy + oscillY, vz⟩⟩

/-- Balloon update over the whole pool (isHard is difficulty = hard). -/
def updateBalloons (isHard : Bool) (oscillY : ℚ) (st : SimState) : SimState :=
  if isHard then
    { st with balloons := st.balloons.map (updateBalloon oscillY) }
  else st

/-- updateTimer, lines 209-216: while the game is running the elapsed time
is recomputed from the absolute clock. -/
def updateTimer (env : FrameEnv) (st : SimState) : SimState :=
  if st.isGameOver then st
  else { st with elapsedTime := (env.now - st.startTime) / 1000 }

/-- shoot, lines 422-445: a no-op once the game is over or within the 50 ms
cooldown since the last shot; otherwise the shot time is recorded and one
bullet is appended at the airplane position with velocity equal to the
rotated forward vector times 12. -/
def shoot (env : FrameEnv) (st : SimState) : SimState :=
  if st.isGameOver then st
  else if env.now - st.lastShot < 50 then st
  else
    { st with
      lastShot := env.now
      bullets := st.bullets ++ [⟨st.pos, env.dir.smul 12⟩] }

/-- One pass of the animate loop, lines 308-321, restricted to the
simulation state: updateFlight, then updateBalloons, then updateTimer, then
shoot when the fire control is held (rendering and engine sound are
external). -/
def animateFrame (isHard : Bool) (env : FrameEnv) (st : SimState) : SimState :=
  let s1 := updateFlight env st
  let s2 := updateBalloons isHard env.oscillY s1
  let s3 := updateTimer env s2
  if env.isShooting then shoot env s3 else s3

/-- resetAirplane, lines 409-420: pose back to the initial pose, speed,
pitch, roll and yaw to 0, health to 100, game over cleared, and the clock
restarted at the current time; every other field is untouched. -/
def resetAirplane (now : ℚ) (st : SimState) : SimState :=
  { st with
    pos := initialPosition
    rot := initialRot
    speed := 0
    pitch := 0
    roll := 0
    yaw := 0
    health := 100
    isGameOver := false
    startTime := now }

/-- Weather target intensity, line 758: 0.3 + Math.sin(t * 0.0005) * 0.3
at absolute time t, embedded over the reals. -/
noncomputable def weatherTarget (t : ℝ) : ℝ :=
  0.3 + Real.sin (t * 0.0005) * 0.3

/-- setWeatherIntensity over the reals, lines 739-740. -/
noncomputable def setWeatherIntensityReal (intensity : ℝ) : ℝ :=
  max 0 (min 1 intensity)

/-- Initial weather intensity, line 36. -/
noncomputable def weatherIntensityInit : ℝ := 0.5

/-- Stored weather intensity after the ticks at the listed absolute times:
each tick of updateWeather replaces the intensity with the clamped target
(line 759), starting from the initial value 0.5. -/
noncomputable def weatherIntensityAfter (ts : List ℝ) : ℝ :=
  ts.foldl (fun _ t => setWeatherIntensityReal (weatherTarget t)) weatherIntensityInit

/-- Baseline concrete state: the freshly constructed simulator (initial
pose, speed 0, health 100, weather 0.5, empty object pools for the parts a
scenario does not mention). -/
def baseState : SimState :=
  { pos := ⟨0, 2, 50⟩
    rot := ⟨0, 0, 0⟩
    speed := 0
    pitch := 0
    roll := 0
    yaw := 0
    altitude := 0
    health := 100
    isGameOver := false
    score := 0
    bullets := []
    balloons := []
    obstacles := []
    weatherIntensity := 0.5
    lastShot := 0
    startTime := 0
    elapsedTime := 0
    respawns := 0 }

/-- Concrete quiet frame: no keys pressed, level forward flight (oracle
direction (0, 0, -1), the unrotated forward vector), zero random draws,
weather target at its midline 0.5. -/
def calmEnv : FrameEnv :=
  { keyW := false
    keyS := false
    keyUp := false
    keyDown := false
    keyLeft := false
    keyRight := false
    isShooting := false
    now := 0
    dir := ⟨0, 0, -1⟩
    newRot := ⟨0, 0, 0⟩
    randX := 0
    randY := 0
    pi3 := 1.047
    collisionRadius := 0
    push := ⟨0, 0, 0⟩
    newWeather := 0.5
    oscillY := 0 }

/-- Concrete frame holding the throttle key w, otherwise quiet. -/
def throttleEnv : FrameEnv := { calmEnv with keyW := true }

/-- Concrete state about to make a hard landing with little health left:
speed 2, altitude heading below the floor, health 5. -/
def crashState : SimState :=
  { baseState with health := 5, speed := 2, pos := ⟨0, 0, 0⟩ }

/-- Concrete state gliding into the ground at speed 1.05, just above the
hard-landing threshold 1 of the claim. -/
def softLandState : SimState :=
  { baseState with speed := 1.05, pos := ⟨0, 0.3, 0⟩ }

/-- Concrete state making a hard landing at speed 2 with full health. -/
def hardLandState : SimState :=
  { baseState with speed := 2, pos := ⟨0, 0.3, 0⟩ }

/-- Concrete game-over state with one moving hard-mode balloon. -/
def overState : SimState :=
  { baseState with isGameOver := true,
                   balloons := [⟨⟨0, 125, 0⟩, some ⟨1, 0, 0⟩⟩] }

/-! ## Helper lemmas -/

theorem updateBulletsTop_preserve (st : SimState) :
    (updateBulletsTop st).pos = st.pos ∧ (updateBulletsTop st).speed = st.speed ∧
    (updateBulletsTop st).health = st.health ∧
    (updateBulletsTop st).isGameOver = st.isGameOver ∧
    (updateBulletsTop st).weatherIntensity = st.weatherIntensity := by
  simp [updateBulletsTop]

theorem updateWeatherQ_preserve (w : ℚ) (st : SimState) :
    (updateWeatherQ w st).pos = st.pos ∧ (updateWeatherQ w st).speed = st.speed ∧
    (updateWeatherQ w st).health = st.health ∧
    (updateWeatherQ w st).isGameOver = st.isGameOver ∧
    (updateWeatherQ w st).score = st.score ∧
    (updateWeatherQ w st).bullets = st.bullets ∧
    (updateWeatherQ w st).balloons = st.balloons := by
  simp [updateWeatherQ, setWeatherIntensityQ]

theorem checkCollisions_cases (cr : ℚ) (push : Vec3) (st : SimState) :
    checkCollisions cr push st = st ∨
      (st.isGameOver = false ∧
        checkCollisions cr push st =
          { st with
            health := st.health - 20
            isGameOver := decide (st.health - 20 ≤ 0)
            pos := st.pos.add push
            speed := st.speed * 0.3 }) := by
  unfold checkCollisions
  split
  · exact Or.inl rfl
  · rename_i hgo
    cases hfind : st.obstacles.find? (fun o => decide (st.pos.distSq o < (cr + 10) * (cr + 10))) with
    | none => exact Or.inl rfl
    | some o => exact Or.inr ⟨Bool.not_eq_true _ ▸ (by simpa using hgo), rfl⟩

theorem groundStep_health_cases (p : Vec3) (s h : ℚ) :
    ((groundStep p s h).health = h ∧ (groundStep p s h).over = false) ∨
      ((groundStep p s h).health = h - 10 ∧
        (groundStep p s h).over = decide (h - 10 ≤ 0)) := by
  by_cases hy : p.y < 0.5
  · by_cases hs : (1 : ℚ) < max 0 (s - 0.1)
    · exact Or.inr (by simp [groundStep, hy, hs])
    · exact Or.inl (by simp [groundStep, hy, hs])
  · exact Or.inl (by simp [groundStep, hy])

theorem weatherTarget_mem (t : ℝ) :
    0 ≤ weatherTarget t ∧ weatherTarget t ≤ 0.6 := by
  have h1 := Real.neg_one_le_sin (t * 0.0005)
  have h2 := Real.sin_le_one (t * 0.0005)
  constructor <;> · unfold weatherTarget; nlinarith

theorem weatherFold_mem (ts : List ℝ) (a : ℝ) (h0 : 0 ≤ a) (h6 : a ≤ 0.6) :
    0 ≤ ts.foldl (fun _ t => setWeatherIntensityReal (weatherTarget t)) a ∧
      ts.foldl (fun _ t => setWeatherIntensityReal (weatherTarget t)) a ≤ 0.6 := by
  induction ts generalizing a with
  | nil => exact ⟨h0, h6⟩
  | cons t ts ih =>
    have hm := weatherTarget_mem t
    have hcl : setWeatherIntensityReal (weatherTarget t) = weatherTarget t := by
      unfold setWeatherIntensityReal
      rw [min_eq_right (by linarith [hm.2] : weatherTarget t ≤ 1),
        max_eq_right hm.1]
    rw [List.foldl_cons]
    exact ih _ (by rw [hcl]; exact hm.1) (by rw [hcl]; exact hm.2)

theorem updateFlight_gameOver (env : FrameEnv) (st : SimState)
    (hgo : st.isGameOver = true) : updateFlight env st = st := by
  unfold updateFlight
  rw [if_pos hgo]

theorem updateFlight_eq (env : FrameEnv) (st : SimState)
    (hgo : st.isGameOver = false) :
    updateFlight env st =
      updateBulletsTop (updateWeatherQ env.newWeather
        (checkCollisions env.collisionRadius env.push (flightMidState env st))) := by
  unfold updateFlight
  rw [if_neg (by simp [hgo])]

theorem throttleStep_mem (kW kS : Bool) (s : ℚ) (h0 : 0 ≤ s)
    (h3 : s ≤ maxSpeed) :
    0 ≤ throttleStep kW kS s ∧ throttleStep kW kS s ≤ maxSpeed := by
  unfold throttleStep
  split_ifs
  · exact ⟨le_min (by linarith) (by norm_num [maxSpeed]), min_le_right _ _⟩
  · exact ⟨le_max_right _ _, max_le (by linarith) (by norm_num [maxSpeed])⟩
  · exact ⟨h0, h3⟩

theorem minSpeedClamp_mem (s : ℚ) (h0 : 0 ≤ s) (h3 : s ≤ maxSpeed) :
    0 ≤ minSpeedClamp s ∧ minSpeedClamp s ≤ maxSpeed := by
  unfold minSpeedClamp
  split_ifs
  · exact ⟨by norm_num [minSpeed], by norm_num [minSpeed, maxSpeed]⟩
  · exact ⟨h0, h3⟩

theorem weatherPenalty_mem (wi s : ℚ) (h0 : 0 ≤ s) (h3 : s ≤ maxSpeed)
    (hw1 : wi ≤ 1) :
    0 ≤ weatherPenalty wi s ∧ weatherPenalty wi s ≤ maxSpeed := by
  unfold weatherPenalty
  split_ifs with h
  · have hwpos : (0 : ℚ) ≤ wi := by linarith
    have hfac : (0 : ℚ) ≤ 1 - wi * 0.01 := by linarith
    constructor
    · exact mul_nonneg h0 hfac
    · have hsw : 0 ≤ s * wi := mul_nonneg h0 hwpos
      unfold maxSpeed at h3 ⊢
      nlinarith
  · exact ⟨h0, h3⟩

theorem groundStep_speed_cases (p : Vec3) (s h : ℚ) :
    (groundStep p s h).speed = max 0 (s - 0.1) ∨
      (groundStep p s h).speed = s := by
  by_cases hy : p.y < 0.5
  · by_cases hs : (1 : ℚ) < max 0 (s - 0.1)
    · exact Or.inl (by simp [groundStep, hy, hs])
    · exact Or.inl (by simp [groundStep, hy, hs])
  · exact Or.inr (by simp [groundStep, hy])

theorem updateFlight_speed_cases (env : FrameEnv) (st : SimState)
    (hgo : st.isGameOver = false) :
    (updateFlight env st).speed =
        (groundStep (movedPos env st) (speedAfterWeather env st) st.health).speed ∨
      (updateFlight env st).speed =
        (groundStep (movedPos env st) (speedAfterWeather env st) st.health).speed * 0.3 := by
  rw [updateFlight_eq env st hgo,
    (updateBulletsTop_preserve _).2.1, (updateWeatherQ_preserve _ _).2.1]
  rcases checkCollisions_cases env.collisionRadius env.push (flightMidState env st)
    with hc | hc
  · rw [hc]
    exact Or.inl rfl
  · rw [hc.2]
    exact Or.inr rfl

theorem updateFlight_health_cases (env : FrameEnv) (st : SimState)
    (hgo : st.isGameOver = false) :
    ((updateFlight env st).health =
        (groundStep (movedPos env st) (speedAfterWeather env st) st.health).health ∧
      (updateFlight env st).isGameOver =
        (groundStep (movedPos env st) (speedAfterWeather env st) st.health).over) ∨
      ((groundStep (movedPos env st) (speedAfterWeather env st) st.health).over = false ∧
        (updateFlight env st).health =
          (groundStep (movedPos env st) (speedAfterWeather env st) st.health).health - 20 ∧
        (updateFlight env st).isGameOver =
          decide ((groundStep (movedPos env st) (speedAfterWeather env st) st.health).health - 20 ≤ 0)) := by
  rw [updateFlight_eq env st hgo]
  rcases checkCollisions_cases env.collisionRadius env.push (flightMidState env st)
    with hc | hc
  · left
    constructor
    · rw [(updateBulletsTop_preserve _).2.2.1, (updateWeatherQ_preserve _ _).2.2.1, hc]
      exact rfl
    · rw [(updateBulletsTop_preserve _).2.2.2.1, (updateWeatherQ_preserve _ _).2.2.2.1, hc]
      exact rfl
  · right
    refine ⟨hc.1, ?_, ?_⟩
    · rw [(updateBulletsTop_preserve _).2.2.1, (updateWeatherQ_preserve _ _).2.2.1, hc.2]
      exact rfl
    · rw [(updateBulletsTop_preserve _).2.2.2.1, (updateWeatherQ_preserve _ _).2.2.2.1, hc.2]
      exact rfl

theorem checkCollisions_no_obstacles (cr : ℚ) (push : Vec3) (st : SimState)
    (hob : st.obstacles = []) : checkCollisions cr push st = st := by
  unfold checkCollisions
  split
  · rfl
  · rw [hob]
    rfl

/-! ## Claim theorems -/

/-- C7: for every prior state, the reset action restores the aircraft
position and orientation to the initial pose exactly, zeroes speed, pitch,
roll and yaw, restores health to 100 and the Flying phase (isGameOver
false), restarts the elapsed-time clock at the reset instant, and keeps the
prior score. -/
theorem reset_restores_pose (st : SimState) (now : ℚ) :
    (resetAirplane now st).pos = initialPosition ∧
    (resetAirplane now st).rot = initialRot ∧
    (resetAirplane now st).speed = 0 ∧
    (resetAirplane now st).pitch = 0 ∧
    (resetAirplane now st).roll = 0 ∧
    (resetAirplane now st).yaw = 0 ∧
    (resetAirplane now st).health = 100 ∧
    (resetAirplane now st).isGameOver = false ∧
    (resetAirplane now st).startTime = now ∧
    (resetAirplane now st).score = st.score := by
  simp [resetAirplane]

/-- C9: the reset action touches only the pose, speed, pitch, roll, yaw,
health, game-over flag and start-time clock; the score, the bullets in
flight, the balloon pool, the obstacles, the weather intensity, the shot
cooldown clock, the displayed elapsed time, the altitude readout and the
pending respawn count all keep their prior values. -/
theorem reset_frame_effect (st : SimState) (now : ℚ) :
    (resetAirplane now st).score = st.score ∧
    (resetAirplane now st).bullets = st.bullets ∧
    (resetAirplane now st).balloons = st.balloons ∧
    (resetAirplane now st).obstacles = st.obstacles ∧
    (resetAirplane now st).weatherIntensity = st.weatherIntensity ∧
    (resetAirplane now st).lastShot = st.lastShot ∧
    (resetAirplane now st).elapsedTime = st.elapsedTime ∧
    (resetAirplane now st).altitude = st.altitude ∧
    (resetAirplane now st).respawns = st.respawns := by
  simp [resetAirplane]

/-- C10: every weather tick computes the intensity 0.3 + 0.3 sin(0.0005 t)
for the current absolute time t, a value always inside [0, 0.6], so the
upper clamp at 1 of setWeatherIntensity never engages, and, starting from
the initial value 0.5, the stored intensity stays in [0, 0.6] in every
reachable state. -/
theorem weather_intensity_range :
    (∀ t : ℝ, weatherTarget t = 0.3 + 0.3 * Real.sin (0.0005 * t)) ∧
    (∀ t : ℝ, 0 ≤ weatherTarget t ∧ weatherTarget t ≤ 0.6) ∧
    (∀ t : ℝ, setWeatherIntensityReal (weatherTarget t) = weatherTarget t) ∧
    (0 ≤ weatherIntensityInit ∧ weatherIntensityInit ≤ 0.6) ∧
    ∀ ts : List ℝ,
      0 ≤ weatherIntensityAfter ts ∧ weatherIntensityAfter ts ≤ 0.6 := by
  refine ⟨fun t => ?_, weatherTarget_mem, fun t => ?_, ⟨?_, ?_⟩, fun ts => ?_⟩
  · unfold weatherTarget; ring_nf
  · have hm := weatherTarget_mem t
    unfold setWeatherIntensityReal
    rw [min_eq_right (by linarith [hm.2] : weatherTarget t ≤ 1),
      max_eq_right hm.1]
  · unfold weatherIntensityInit; norm_num
  · unfold weatherIntensityInit; norm_num
  · exact weatherFold_mem ts weatherIntensityInit
      (by unfold weatherIntensityInit; norm_num)
      (by unfold weatherIntensityInit; norm_num)

/-- C1 counterexample: flying level at exactly minSpeed = 0.5 under weather
intensity 0.6 (inside the reachable weather range), one updateFlight call
applies the weather penalty after the minimum-speed clamp and ends the
frame at speed 0.497, which is positive yet strictly below minSpeed, so the
claimed per-frame invariant speed > 0 implies speed at least minSpeed is
false. -/
theorem speed_bounds_cex :
    (updateFlight calmEnv
        { baseState with speed := 0.5, weatherIntensity := 0.6,
                         pos := ⟨0, 100, 0⟩ }).speed = 0.497 ∧
      (0 : ℚ) < 0.497 ∧ (0.497 : ℚ) < minSpeed := by
  refine ⟨?_, by norm_num, by norm_num [minSpeed]⟩
  norm_num [updateFlight, flightMidState, speedAfterWeather, throttleStep,
    minSpeedClamp, weatherPenalty, pitchStep, rollYawStep, flightDir,
    movedPos, groundStep, checkCollisions, updateWeatherQ,
    setWeatherIntensityQ, updateBulletsTop, updateBulletsAux, baseState,
    calmEnv, minSpeed, maxSpeed, Vec3.add, Vec3.smul, min_def, max_def]

/-- C1 (amended): on every frame the speed stays inside [0, maxSpeed]
(given the stored weather intensity is in its clamped range [0, 1]), and
the minimum-speed property holds exactly at the clamp step: a positive
clamped speed is at least minSpeed.  The original claim fails at frame end
because the weather penalty (intensity above 0.5) and the ground-contact
speed penalty both run after the clamp, so a frame can finish with a
positive speed strictly below minSpeed. -/
theorem speed_bounds_per_frame (env : FrameEnv) (st : SimState)
    (h0 : 0 ≤ st.speed) (h3 : st.speed ≤ maxSpeed)
    (hw1 : st.weatherIntensity ≤ 1) :
    (0 ≤ (updateFlight env st).speed ∧ (updateFlight env st).speed ≤ maxSpeed) ∧
      ∀ s : ℚ, 0 < minSpeedClamp s → minSpeed ≤ minSpeedClamp s := by
  have hclamp : ∀ s : ℚ, 0 < minSpeedClamp s → minSpeed ≤ minSpeedClamp s := by
    intro s hs
    unfold minSpeedClamp at hs ⊢
    split_ifs with h
    · exact le_refl _
    · rw [if_neg h] at hs
      rcases not_and_or.mp h with h1 | h2
      · exact absurd hs h1
      · exact not_lt.mp h2
  refine ⟨?_, hclamp⟩
  by_cases hgo : st.isGameOver = true
  · rw [updateFlight_gameOver env st hgo]
    exact ⟨h0, h3⟩
  · have hgo2 : st.isGameOver = false := by
      revert hgo; cases st.isGameOver <;> simp
    have hs3 : 0 ≤ speedAfterWeather env st ∧
        speedAfterWeather env st ≤ maxSpeed := by
      have h1 := throttleStep_mem env.keyW env.keyS st.speed h0 h3
      have h2 := minSpeedClamp_mem _ h1.1 h1.2
      exact weatherPenalty_mem _ _ h2.1 h2.2 hw1
    have hg : 0 ≤ (groundStep (movedPos env st) (speedAfterWeather env st)
          st.health).speed ∧
        (groundStep (movedPos env st) (speedAfterWeather env st)
          st.health).speed ≤ maxSpeed := by
      rcases groundStep_speed_cases (movedPos env st)
          (speedAfterWeather env st) st.health with h | h
      · rw [h]
        exact ⟨le_max_left 0 _,
          max_le (by norm_num [maxSpeed]) (by linarith [hs3.2])⟩
      · rw [h]; exact hs3
    rcases updateFlight_speed_cases env st hgo2 with h | h <;> rw [h]
    · exact hg
    · constructor
      · exact mul_nonneg hg.1 (by norm_num)
      · have := hg.2
        unfold maxSpeed at this ⊢
        nlinarith

/-- C1 witness: the amended per-frame speed bounds instantiated at the
fresh state and a quiet frame. -/
theorem speed_bounds_per_frame_witness :
    (0 ≤ (updateFlight calmEnv baseState).speed ∧
        (updateFlight calmEnv baseState).speed ≤ maxSpeed) ∧
      ∀ s : ℚ, 0 < minSpeedClamp s → minSpeed ≤ minSpeedClamp s :=
  speed_bounds_per_frame calmEnv baseState
    (by norm_num [baseState]) (by norm_num [baseState, maxSpeed])
    (by norm_num [baseState])

/-- C3 counterexample: a hard landing from health 5 subtracts the fixed
penalty 10 with no clamping, leaving health at -5, a negative value, after
the frame (game over does trigger, but the stored health is negative,
contradicting the claimed clamp to zero before the check). -/
theorem health_clamp_cex :
    (updateFlight calmEnv crashState).health = -5 ∧ ((-5 : ℚ) < 0) ∧
      (updateFlight calmEnv crashState).isGameOver = true := by
  refine ⟨?_, by norm_num, ?_⟩ <;>
    norm_num [updateFlight, flightMidState, speedAfterWeather, throttleStep,
      minSpeedClamp, weatherPenalty, pitchStep, rollYawStep, flightDir,
      movedPos, groundStep, checkCollisions, updateWeatherQ,
      setWeatherIntensityQ, updateBulletsTop, updateBulletsAux, baseState,
      crashState, calmEnv, minSpeed, maxSpeed, Vec3.add, Vec3.smul,
      min_def, max_def]

/-- C3 (amended): the per-frame damage sources never clamp health at zero:
a frame never increases health, decreases it by at most 30 (hard landing 10
plus obstacle collision 20), and whenever a frame decreases health to a
value at most 0 the phase becomes GameOver in that same frame; health
itself may end the frame negative, as the counterexample shows. -/
theorem health_never_clamped (env : FrameEnv) (st : SimState) :
    (updateFlight env st).health ≤ st.health ∧
      st.health - 30 ≤ (updateFlight env st).health ∧
      ((updateFlight env st).health < st.health →
        (updateFlight env st).health ≤ 0 →
        (updateFlight env st).isGameOver = true) := by
  by_cases hgo : st.isGameOver = true
  · rw [updateFlight_gameOver env st hgo]
    exact ⟨le_refl _, by linarith, fun h1 _ => absurd h1 (lt_irrefl _)⟩
  · have hgo2 : st.isGameOver = false := by
      revert hgo; cases st.isGameOver <;> simp
    rcases updateFlight_health_cases env st hgo2 with ⟨hH, hG⟩ | ⟨hov, hH, hG⟩ <;>
      rcases groundStep_health_cases (movedPos env st)
        (speedAfterWeather env st) st.health with ⟨he, ho⟩ | ⟨he, ho⟩
    · rw [hH, he]
      exact ⟨le_refl _, by linarith, fun h1 _ => absurd h1 (lt_irrefl _)⟩
    · rw [hH, he]
      refine ⟨by linarith, by linarith, fun h1 h2 => ?_⟩
      rw [hG, ho]
      exact decide_eq_true (by linarith)
    · rw [hH, he]
      refine ⟨by linarith, by linarith, fun h1 h2 => ?_⟩
      rw [hG, he]
      exact decide_eq_true (by linarith)
    · rw [hH, he]
      refine ⟨by linarith, by linarith, fun h1 h2 => ?_⟩
      rw [hG, he]
      exact decide_eq_true (by linarith)

/-- C3 witness: the amended health bounds instantiated at the fresh state
and a quiet frame. -/
theorem health_never_clamped_witness :
    (updateFlight calmEnv baseState).health ≤ baseState.health ∧
      baseState.health - 30 ≤ (updateFlight calmEnv baseState).health ∧
      ((updateFlight calmEnv baseState).health < baseState.health →
        (updateFlight calmEnv baseState).health ≤ 0 →
        (updateFlight calmEnv baseState).isGameOver = true) :=
  health_never_clamped calmEnv baseState

/-- C5 counterexample: ground contact with pre-penalty speed 1.05, which
exceeds the hard-landing threshold 1, yet the frame leaves health at 100:
the source applies the speed penalty first (1.05 becomes 0.95) and tests
the post-penalty speed against 1, so no health penalty fires, refuting the
claimed if-and-only-if on the pre-penalty speed. -/
theorem hard_landing_threshold_cex :
    speedAfterWeather calmEnv softLandState = 1.05 ∧ (1 : ℚ) < 1.05 ∧
      (movedPos calmEnv softLandState).y < 0.5 ∧
      (updateFlight calmEnv softLandState).health = 100 ∧
      (updateFlight calmEnv softLandState).pos.y = 0.5 ∧
      (updateFlight calmEnv softLandState).speed = 0.95 := by
  refine ⟨?_, by norm_num, ?_, ?_, ?_, ?_⟩ <;>
    norm_num [updateFlight, flightMidState, speedAfterWeather, throttleStep,
      minSpeedClamp, weatherPenalty, pitchStep, rollYawStep, flightDir,
      movedPos, groundStep, checkCollisions, updateWeatherQ,
      setWeatherIntensityQ, updateBulletsTop, updateBulletsAux, baseState,
      softLandState, calmEnv, minSpeed, maxSpeed, Vec3.add, Vec3.smul,
      min_def, max_def]

/-- C5 (amended): on ground contact (moved altitude below the floor 0.5,
stated here away from obstacles), the y position is clamped to 0.5 and the
speed decreases by 0.1 floored at 0; the fixed health penalty of 10 is
applied if and only if the post-penalty speed max 0 (s - 0.1) exceeds the
threshold 1 (equivalently, the pre-penalty speed exceeds 1.1); the phase
becomes GameOver exactly when the penalty fires and drops health to at
most 0.  The original claim gates the penalty on the pre-penalty speed
exceeding 1, which the counterexample refutes. -/
theorem ground_contact_effects (env : FrameEnv) (st : SimState)
    (hgo : st.isGameOver = false)
    (hy : (movedPos env st).y < 0.5)
    (hob : st.obstacles = []) :
    (updateFlight env st).pos.y = 0.5 ∧
      (updateFlight env st).speed =
        max 0 (speedAfterWeather env st - 0.1) ∧
      (updateFlight env st).health =
        (if 1 < max 0 (speedAfterWeather env st - 0.1) then st.health - 10
          else st.health) ∧
      (updateFlight env st).isGameOver =
        (decide (1 < max 0 (speedAfterWeather env st - 0.1)) &&
          decide (st.health - 10 ≤ 0)) := by
  rw [updateFlight_eq env st hgo,
    checkCollisions_no_obstacles env.collisionRadius env.push
      (flightMidState env st) (show (flightMidState env st).obstacles = [] from hob)]
  by_cases hs : (1 : ℚ) < max 0 (speedAfterWeather env st - 0.1)
  · have hgdef : groundStep (movedPos env st) (speedAfterWeather env st) st.health =
        ⟨⟨(movedPos env st).x, 0.5, (movedPos env st).z⟩,
          max 0 (speedAfterWeather env st - 0.1), st.health - 10,
          decide (st.health - 10 ≤ 0)⟩ := by
      simp [groundStep, hy, hs]
    refine ⟨?_, ?_, ?_, ?_⟩
    · rw [(updateBulletsTop_preserve _).1, (updateWeatherQ_preserve _ _).1]
      show (groundStep (movedPos env st) (speedAfterWeather env st) st.health).pos.y = 0.5
      rw [hgdef]
    · rw [(updateBulletsTop_preserve _).2.1, (updateWeatherQ_preserve _ _).2.1]
      show (groundStep (movedPos env st) (speedAfterWeather env st) st.health).speed = _
      rw [hgdef]
    · rw [(updateBulletsTop_preserve _).2.2.1, (updateWeatherQ_preserve _ _).2.2.1]
      show (groundStep (movedPos env st) (speedAfterWeather env st) st.health).health = _
      rw [hgdef, if_pos hs]
    · rw [(updateBulletsTop_preserve _).2.2.2.1, (updateWeatherQ_preserve _ _).2.2.2.1]
      show (groundStep (movedPos env st) (speedAfterWeather env st) st.health).over = _
      rw [hgdef]
      simp [hs]
  · have hgdef : groundStep (movedPos env st) (speedAfterWeather env st) st.health =
        ⟨⟨(movedPos env st).x, 0.5, (movedPos env st).z⟩,
          max 0 (speedAfterWeather env st - 0.1), st.health, false⟩ := by
      simp [groundStep, hy, hs]
    refine ⟨?_, ?_, ?_, ?_⟩
    · rw [(updateBulletsTop_preserve _).1, (updateWeatherQ_preserve _ _).1]
      show (groundStep (movedPos env st) (speedAfterWeather env st) st.health).pos.y = 0.5
      rw [hgdef]
    · rw [(updateBulletsTop_preserve _).2.1, (updateWeatherQ_preserve _ _).2.1]
      show (groundStep (movedPos env st) (speedAfterWeather env st) st.health).speed = _
      rw [hgdef]
    · rw [(updateBulletsTop_preserve _).2.2.1, (updateWeatherQ_preserve _ _).2.2.1]
      show (groundStep (movedPos env st) (speedAfterWeather env st) st.health).health = _
      rw [hgdef, if_neg hs]
    · rw [(updateBulletsTop_preserve _).2.2.2.1, (updateWeatherQ_preserve _ _).2.2.2.1]
      show (groundStep (movedPos env st) (speedAfterWeather env st) st.health).over = _
      rw [hgdef]
      simp [hs]

/-- C5 witness: the amended ground-contact contract instantiated at a hard
landing from speed 2 with full health: altitude clamps to 0.5, the speed
drops to 1.9, the post-penalty test fires and health loses 10. -/
theorem ground_contact_effects_witness :
    (updateFlight calmEnv hardLandState).pos.y = 0.5 ∧
      (updateFlight calmEnv hardLandState).speed =
        max 0 (speedAfterWeather calmEnv hardLandState - 0.1) ∧
      (updateFlight calmEnv hardLandState).health =
        (if 1 < max 0 (speedAfterWeather calmEnv hardLandState - 0.1) then
          hardLandState.health - 10
          else hardLandState.health) ∧
      (updateFlight calmEnv hardLandState).isGameOver =
        (decide (1 < max 0 (speedAfterWeather calmEnv hardLandState - 0.1)) &&
          decide (hardLandState.health - 10 ≤ 0)) :=
  ground_contact_effects calmEnv hardLandState
    (by norm_num [hardLandState, baseState])
    (by norm_num [movedPos, flightDir, speedAfterWeather, throttleStep,
      minSpeedClamp, weatherPenalty, hardLandState, baseState, calmEnv,
      minSpeed, maxSpeed, Vec3.add, Vec3.smul, min_def, max_def])
    (by norm_num [hardLandState, baseState])

theorem updateBalloons_preserve (isHard : Bool) (o : ℚ) (st : SimState) :
    (updateBalloons isHard o st).pos = st.pos ∧
    (updateBalloons isHard o st).score = st.score ∧
    (updateBalloons isHard o st).bullets = st.bullets ∧
    (updateBalloons isHard o st).health = st.health ∧
    (updateBalloons isHard o st).isGameOver = st.isGameOver ∧
    (updateBalloons isHard o st).elapsedTime = st.elapsedTime := by
  unfold updateBalloons
  split_ifs <;> simp

theorem updateBalloons_simple (o : ℚ) (st : SimState) :
    updateBalloons false o st = st := by
  simp [updateBalloons]

/-- C2 counterexample: in hard difficulty a game-over frame still moves the
patrol balloons: from a game-over state with one balloon at (0, 125, 0)
carrying velocity (1, 0, 0), one animate pass leaves the balloon at
(1, 125, 0), so target positions are not frozen for the hard difficulty
setting. -/
theorem gameover_freeze_cex :
    overState.isGameOver = true ∧
      (animateFrame true calmEnv overState).balloons.map Balloon.pos =
        [⟨1, 125, 0⟩] ∧
      overState.balloons.map Balloon.pos = [⟨0, 125, 0⟩] ∧
      ((⟨1, 125, 0⟩ : Vec3) ≠ ⟨0, 125, 0⟩) := by
  refine ⟨rfl, ?_, rfl, ?_⟩
  · norm_num [animateFrame, updateFlight, updateBalloons, updateBalloon,
      updateTimer, shoot, overState, baseState, calmEnv, Vec3.add]
  · norm_num [Vec3.mk.injEq]

/-- C2 (amended): once the phase is GameOver, every animate pass leaves the
aircraft position, the score, the bullets, the health and the elapsed time
unchanged, and in simple difficulty the balloon pool is also unchanged; in
hard difficulty, however, patrol balloons keep moving during GameOver
(updateBalloons is called unconditionally from animate), as the
counterexample shows. -/
theorem gameover_freeze (isHard : Bool) (env : FrameEnv) (st : SimState)
    (h : st.isGameOver = true) :
    (animateFrame isHard env st).pos = st.pos ∧
      (animateFrame isHard env st).score = st.score ∧
      (animateFrame isHard env st).bullets = st.bullets ∧
      (animateFrame isHard env st).health = st.health ∧
      (animateFrame isHard env st).elapsedTime = st.elapsedTime ∧
      (animateFrame false env st).balloons = st.balloons := by
  have key : ∀ hard : Bool, animateFrame hard env st =
      updateBalloons hard env.oscillY st := by
    intro hard
    have h2go : (updateBalloons hard env.oscillY st).isGameOver = true := by
      rw [(updateBalloons_preserve hard env.oscillY st).2.2.2.2.1]
      exact h
    have htimer : updateTimer env (updateBalloons hard env.oscillY st) =
        updateBalloons hard env.oscillY st := by
      unfold updateTimer
      rw [if_pos h2go]
    have hshoot : shoot env (updateBalloons hard env.oscillY st) =
        updateBalloons hard env.oscillY st := by
      unfold shoot
      rw [if_pos h2go]
    simp only [animateFrame]
    rw [updateFlight_gameOver env st h, htimer, hshoot, ite_self]
  refine ⟨?_, ?_, ?_, ?_, ?_, ?_⟩
  · rw [key isHard]; exact (updateBalloons_preserve _ _ _).1
  · rw [key isHard]; exact (updateBalloons_preserve _ _ _).2.1
  · rw [key isHard]; exact (updateBalloons_preserve _ _ _).2.2.1
  · rw [key isHard]; exact (updateBalloons_preserve _ _ _).2.2.2.1
  · rw [key isHard]; exact (updateBalloons_preserve _ _ _).2.2.2.2.2
  · rw [key false, updateBalloons_simple]

/-- C2 witness: the amended freeze instantiated at the concrete game-over
state. -/
theorem gameover_freeze_witness :
    (animateFrame true calmEnv overState).pos = overState.pos ∧
      (animateFrame true calmEnv overState).score = overState.score ∧
      (animateFrame true calmEnv overState).bullets = overState.bullets ∧
      (animateFrame true calmEnv overState).health = overState.health ∧
      (animateFrame true calmEnv overState).elapsedTime = overState.elapsedTime ∧
      (animateFrame false calmEnv overState).balloons = overState.balloons :=
  gameover_freeze true calmEnv overState rfl

set_option maxHeartbeats 1600000 in
/-- C4 counterexample: holding the throttle for 10 frames from rest (weather
at 0.5, no ground contact, no obstacles) ends at speed 0.95, not the
claimed 0.5: the first frame already snaps the speed from 0.05 up to
minSpeed 0.5 through the minimum-speed clamp, and each further frame adds
0.05. -/
theorem throttle_ten_frames_cex :
    ((updateFlight throttleEnv)^[10] baseState).speed = 0.95 ∧
      ¬((0.95 : ℚ) = 0.5) := by
  refine ⟨?_, by norm_num⟩
  norm_num [Function.iterate_succ_apply, updateFlight, flightMidState,
    speedAfterWeather, throttleStep, minSpeedClamp, weatherPenalty,
    pitchStep, rollYawStep, flightDir, movedPos, groundStep,
    checkCollisions, updateWeatherQ, setWeatherIntensityQ, updateBulletsTop,
    updateBulletsAux, baseState, calmEnv, throttleEnv, minSpeed, maxSpeed,
    Vec3.add, Vec3.smul, min_def, max_def]

/-- C4 (amended): from rest with the throttle held (weather at most 0.5, no
ground contact, no obstacles) the first frame sets the speed to minSpeed
0.5 via the minimum-speed clamp (not 0.05), and every subsequent throttle
frame from a speed of at least minSpeed sets the speed to
min (speed + 0.05) maxSpeed, so the speed grows by 0.05 per frame, reaches
0.95 at frame 10 (shown in the counterexample), and clamps at maxSpeed 3
once reached. -/
theorem throttle_frames (st : SimState)
    (hgo : st.isGameOver = false) (hw : st.weatherIntensity ≤ 0.5)
    (hy : (0.5 : ℚ) ≤ st.pos.y) (hob : st.obstacles = [])
    (hs : minSpeed ≤ st.speed) :
    ((updateFlight throttleEnv)^[1] baseState).speed = 0.5 ∧
      (updateFlight throttleEnv st).speed = min (st.speed + 0.05) maxSpeed := by
  constructor
  · norm_num [Function.iterate_succ_apply, updateFlight, flightMidState,
      speedAfterWeather, throttleStep, minSpeedClamp, weatherPenalty,
      pitchStep, rollYawStep, flightDir, movedPos, groundStep,
      checkCollisions, updateWeatherQ, setWeatherIntensityQ, updateBulletsTop,
      updateBulletsAux, baseState, calmEnv, throttleEnv, minSpeed, maxSpeed,
      Vec3.add, Vec3.smul, min_def, max_def]
  · have hwneg : ¬ (0.5 : ℚ) < st.weatherIntensity := not_lt.mpr hw
    have hmin : minSpeed ≤ min (st.speed + 0.05) maxSpeed :=
      le_min (by unfold minSpeed at hs ⊢; linarith)
        (by norm_num [minSpeed, maxSpeed])
    have hsw : speedAfterWeather throttleEnv st = min (st.speed + 0.05) maxSpeed := by
      have h1 : throttleStep throttleEnv.keyW throttleEnv.keyS st.speed =
          min (st.speed + 0.05) maxSpeed := by
        norm_num [throttleStep, throttleEnv, calmEnv]
      have h2 : minSpeedClamp (min (st.speed + 0.05) maxSpeed) =
          min (st.speed + 0.05) maxSpeed := by
        unfold minSpeedClamp
        rw [if_neg]
        push_neg
        intro _
        exact hmin
      have h3 : weatherPenalty st.weatherIntensity
          (min (st.speed + 0.05) maxSpeed) = min (st.speed + 0.05) maxSpeed := by
        unfold weatherPenalty
        rw [if_neg hwneg]
      unfold speedAfterWeather
      rw [h1, h2, h3]
    have hs3nonneg : 0 ≤ speedAfterWeather throttleEnv st := by
      rw [hsw]
      exact le_trans (by norm_num [minSpeed]) hmin
    have hfd : flightDir throttleEnv st =
        ⟨throttleEnv.dir.x,
          throttleEnv.dir.y + max 0 (speedAfterWeather throttleEnv st * 0.02),
          throttleEnv.dir.z⟩ := by
      simp only [flightDir]
      rw [if_neg hwneg]
    have hmy : (movedPos throttleEnv st).y =
        st.pos.y +
          (throttleEnv.dir.y + max 0 (speedAfterWeather throttleEnv st * 0.02)) *
            speedAfterWeather throttleEnv st := by
      unfold movedPos
      rw [hfd]
      simp [Vec3.add, Vec3.smul]
    have hdy : throttleEnv.dir.y = 0 := rfl
    have hnc : ¬ (movedPos throttleEnv st).y < 0.5 := by
      rw [hmy, hdy]
      have hl : (0 : ℚ) ≤ max 0 (speedAfterWeather throttleEnv st * 0.02) :=
        le_max_left _ _
      have hprod : 0 ≤ (0 + max 0 (speedAfterWeather throttleEnv st * 0.02)) *
          speedAfterWeather throttleEnv st :=
        mul_nonneg (by linarith) hs3nonneg
      push_neg
      linarith
    rw [updateFlight_eq _ st hgo,
      checkCollisions_no_obstacles throttleEnv.collisionRadius throttleEnv.push
        (flightMidState throttleEnv st)
        (show (flightMidState throttleEnv st).obstacles = [] from hob),
      (updateBulletsTop_preserve _).2.1, (updateWeatherQ_preserve _ _).2.1]
    show (groundStep (movedPos throttleEnv st)
        (speedAfterWeather throttleEnv st) st.health).speed = _
    rw [show groundStep (movedPos throttleEnv st)
        (speedAfterWeather throttleEnv st) st.health =
        ⟨movedPos throttleEnv st, speedAfterWeather throttleEnv st,
          st.health, false⟩ from by simp [groundStep, hnc]]
    exact hsw

/-- C4 witness: the per-frame throttle law instantiated at speed maxSpeed:
one more throttle frame keeps the speed clamped at min (3 + 0.05) 3 = 3. -/
theorem throttle_frames_witness :
    ((updateFlight throttleEnv)^[1] baseState).speed = 0.5 ∧
      (updateFlight throttleEnv { baseState with speed := 3 }).speed =
        min ((3 : ℚ) + 0.05) maxSpeed :=
  throttle_frames { baseState with speed := 3 }
    (by norm_num [baseState]) (by norm_num [baseState])
    (by norm_num [baseState]) (by norm_num [baseState])
    (by norm_num [baseState, minSpeed])

theorem hitScanRev_eq_none (p : Vec3) (bls : List Balloon) :
    hitScanRev p bls = none ↔ ∀ bl ∈ bls, ¬ p.distSq bl.pos < 36 := by
  induction bls with
  | nil => simp [hitScanRev]
  | cons bl rest ih =>
    simp only [hitScanRev]
    cases h : hitScanRev p rest with
    | some rest2 =>
      constructor
      · intro hf
        exact absurd hf (by simp)
      · intro hall
        have hn : hitScanRev p rest = none :=
          ih.mpr (fun b hb => hall b (List.mem_cons_of_mem _ hb))
        rw [h] at hn
        exact absurd hn (by simp)
    | none =>
      by_cases hd : p.distSq bl.pos < 36
      · rw [if_pos hd]
        constructor
        · intro hf
          exact absurd hf (by simp)
        · intro hall
          exact absurd hd (hall bl (List.mem_cons_self _ _))
      · rw [if_neg hd]
        constructor
        · intro _ b hb
          rcases List.mem_cons.mp hb with rfl | hb2
          · exact hd
          · exact ih.mp h b hb2
        · intro _
          rfl

theorem hitScanRev_some_length (p : Vec3) :
    ∀ (bls bls2 : List Balloon), hitScanRev p bls = some bls2 →
      bls2.length + 1 = bls.length := by
  intro bls
  induction bls with
  | nil =>
    intro bls2 h
    simp [hitScanRev] at h
  | cons bl rest ih =>
    intro bls2 h
    simp only [hitScanRev] at h
    cases hr : hitScanRev p rest with
    | some rest2 =>
      rw [hr] at h
      simp only [Option.some.injEq] at h
      subst h
      have := ih rest2 hr
      simp only [List.length_cons]
      omega
    | none =>
      rw [hr] at h
      by_cases hd : p.distSq bl.pos < 36
      · rw [if_pos hd] at h
        simp only [Option.some.injEq] at h
        subst h
        simp
      · rw [if_neg hd] at h
        exact absurd h (by simp)

theorem hitScanRev_hit (p : Vec3) (bls : List Balloon)
    (hhit : ∃ bl ∈ bls, p.distSq bl.pos < 36) :
    ∃ bls2, hitScanRev p bls = some bls2 ∧ bls2.length + 1 = bls.length := by
  cases h : hitScanRev p bls with
  | none =>
    exfalso
    obtain ⟨bl, hbl, hd⟩ := hhit
    exact (hitScanRev_eq_none p bls).mp h bl hbl hd
  | some bls2 => exact ⟨bls2, rfl, hitScanRev_some_length p bls bls2 h⟩

/-- C6 counterexample: a bullet freshly spawned at the aircraft position
(0, 0, 995) with velocity (0, 0, 12) has travelled only 12 world units from
its spawn point after one update, far below the range 1000, yet
updateBullets removes it, because the removal criterion is the distance
from the world origin (position length 1007 > 1000), not the cumulative
travel distance from the spawn point. -/
theorem bullet_range_cex :
    (updateBulletsAux [⟨⟨0, 0, 995⟩, ⟨0, 0, 12⟩⟩] [] 0 0).bullets = [] ∧
      Vec3.normSq ⟨0, 0, 12⟩ = 144 ∧ ((144 : ℚ) < 1000000) ∧
      Vec3.normSq (Vec3.add ⟨0, 0, 995⟩ ⟨0, 0, 12⟩) = 1014049 ∧
      ((1000000 : ℚ) < 1014049) := by
  refine ⟨?_, by norm_num [Vec3.normSq], by norm_num,
    by norm_num [Vec3.normSq, Vec3.add], by norm_num⟩
  norm_num [updateBulletsAux, hitScanRev, Vec3.add, Vec3.normSq]

/-- C6 (amended): each projectile update advances every projectile by its
velocity and removes it exactly when its distance from the world origin
(not its cumulative travel distance from the spawn point) exceeds 1000;
projectiles that stay within 1000 of the origin and hit no target are all
retained in order, and with no hits the balloons, the score and the pending
respawns are unchanged. -/
theorem bullets_update_range (bs : List Bullet) (bls : List Balloon)
    (sc : ℤ) (rs : ℕ)
    (hmiss : ∀ b ∈ bs, ∀ bl ∈ bls, ¬ (b.pos.add b.vel).distSq bl.pos < 36) :
    (updateBulletsAux bs bls sc rs).bullets =
        (bs.map advanceBullet).filter
          (fun b2 => !decide (1000000 < b2.pos.normSq)) ∧
      (updateBulletsAux bs bls sc rs).balloons = bls ∧
      (updateBulletsAux bs bls sc rs).score = sc ∧
      (updateBulletsAux bs bls sc rs).respawns = rs := by
  induction bs with
  | nil => simp [updateBulletsAux]
  | cons b rest ih =>
    have hmiss_rest : ∀ b2 ∈ rest, ∀ bl ∈ bls,
        ¬ (b2.pos.add b2.vel).distSq bl.pos < 36 :=
      fun b2 hb2 bl hbl => hmiss b2 (List.mem_cons_of_mem _ hb2) bl hbl
    obtain ⟨ihb, ihbl, ihs, ihr⟩ := ih hmiss_rest
    simp only [updateBulletsAux]
    by_cases hrange : 1000000 < (b.pos.add b.vel).normSq
    · rw [if_pos hrange]
      refine ⟨?_, ihbl, ihs, ihr⟩
      rw [ihb]
      simp [List.filter_cons, advanceBullet, hrange]
    · rw [if_neg hrange]
      have hnone : hitScanRev (b.pos.add b.vel)
          (updateBulletsAux rest bls sc rs).balloons = none := by
        rw [ihbl]
        exact (hitScanRev_eq_none _ _).mpr
          (fun bl hbl => hmiss b (List.mem_cons_self _ _) bl hbl)
      rw [hnone]
      refine ⟨?_, ihbl, ihs, ihr⟩
      rw [ihb]
      simp [List.filter_cons, advanceBullet, hrange]

/-- C6 witness: the range law instantiated at one in-range bullet missing
the single balloon: the bullet advances and is retained, the balloon, score
and respawn count are unchanged. -/
theorem bullets_update_range_witness :
    (updateBulletsAux [⟨⟨0, 0, 0⟩, ⟨1, 0, 0⟩⟩] [⟨⟨100, 0, 0⟩, none⟩] 5 2).bullets =
        (([⟨⟨0, 0, 0⟩, ⟨1, 0, 0⟩⟩] : List Bullet).map advanceBullet).filter
          (fun b2 => !decide (1000000 < b2.pos.normSq)) ∧
      (updateBulletsAux [⟨⟨0, 0, 0⟩, ⟨1, 0, 0⟩⟩] [⟨⟨100, 0, 0⟩, none⟩] 5 2).balloons =
        [⟨⟨100, 0, 0⟩, none⟩] ∧
      (updateBulletsAux [⟨⟨0, 0, 0⟩, ⟨1, 0, 0⟩⟩] [⟨⟨100, 0, 0⟩, none⟩] 5 2).score = 5 ∧
      (updateBulletsAux [⟨⟨0, 0, 0⟩, ⟨1, 0, 0⟩⟩] [⟨⟨100, 0, 0⟩, none⟩] 5 2).respawns = 2 :=
  bullets_update_range [⟨⟨0, 0, 0⟩, ⟨1, 0, 0⟩⟩] [⟨⟨100, 0, 0⟩, none⟩] 5 2
    (by
      intro b hb bl hbl
      simp only [List.mem_singleton] at hb hbl
      subst hb
      subst hbl
      norm_num [Vec3.add, Vec3.distSq])

/-- C8: within one update pass a projectile that stays in range and has at
least one balloon within hit radius 6 scores exactly once: the score rises
by exactly 100, exactly one respawn is scheduled, exactly one balloon is
removed, and the projectile itself is consumed, even when several balloons
are simultaneously within the radius; moreover, over any pass the score
rises by exactly 100 per scheduled respawn and at most one respawn is
scheduled per projectile. -/
theorem hit_consumption (b : Bullet) (bls : List Balloon) (sc : ℤ) (rs : ℕ)
    (hin : (b.pos.add b.vel).normSq ≤ 1000000)
    (hhit : ∃ bl ∈ bls, (b.pos.add b.vel).distSq bl.pos < 36) :
    (updateBulletsAux [b] bls sc rs).score = sc + 100 ∧
      (updateBulletsAux [b] bls sc rs).respawns = rs + 1 ∧
      (updateBulletsAux [b] bls sc rs).bullets = [] ∧
      (updateBulletsAux [b] bls sc rs).balloons.length + 1 = bls.length ∧
      ∀ (bs2 : List Bullet) (bls2 : List Balloon) (sc2 : ℤ) (rs2 : ℕ),
        ∃ k ≤ bs2.length,
          (updateBulletsAux bs2 bls2 sc2 rs2).respawns = rs2 + k ∧
          (updateBulletsAux bs2 bls2 sc2 rs2).score = sc2 + 100 * k := by
  obtain ⟨bls2, hscan, hlen⟩ := hitScanRev_hit (b.pos.add b.vel) bls hhit
  have hnr : ¬ 1000000 < (b.pos.add b.vel).normSq := not_lt.mpr hin
  have h1 : updateBulletsAux [b] bls sc rs = ⟨[], bls2, sc + 100, rs + 1⟩ := by
    simp only [updateBulletsAux]
    rw [if_neg hnr]
    show (match hitScanRev (b.pos.add b.vel) bls with
      | some bls3 => (⟨[], bls3, sc + 100, rs + 1⟩ : BulletsRes)
      | none => ⟨[⟨b.pos.add b.vel, b.vel⟩], bls, sc, rs⟩) = _
    rw [hscan]
  refine ⟨by rw [h1], by rw [h1], by rw [h1], ?_, ?_⟩
  · rw [h1]
    exact hlen
  · intro bs2 bls2a sc2 rs2
    induction bs2 with
    | nil => exact ⟨0, by simp, by simp [updateBulletsAux], by simp [updateBulletsAux]⟩
    | cons b2 rest ih =>
      obtain ⟨k, hk, hrsp, hsc⟩ := ih
      simp only [updateBulletsAux]
      by_cases hrange : 1000000 < (b2.pos.add b2.vel).normSq
      · rw [if_pos hrange]
        exact ⟨k, by simp; omega, hrsp, hsc⟩
      · rw [if_neg hrange]
        cases hs : hitScanRev (b2.pos.add b2.vel)
            (updateBulletsAux rest bls2a sc2 rs2).balloons with
        | some bls3 =>
          refine ⟨k + 1, by simp; omega, ?_, ?_⟩
          · show (updateBulletsAux rest bls2a sc2 rs2).respawns + 1 = rs2 + (k + 1)
            omega
          · show (updateBulletsAux rest bls2a sc2 rs2).score + 100 = sc2 + 100 * (k + 1)
            rw [hsc]
            ring
        | none =>
          exact ⟨k, by simp; omega, hrsp, hsc⟩

/-- C8 witness: the hit-consumption law instantiated at a bullet reaching
(0, 0, 1) with two balloons both within radius 6 (at distance 1 and 2):
one pass scores exactly 100, schedules one respawn, removes one balloon and
consumes the bullet. -/
theorem hit_consumption_witness :
    (updateBulletsAux [⟨⟨0, 0, 0⟩, ⟨0, 0, 1⟩⟩]
        [⟨⟨0, 0, 2⟩, none⟩, ⟨⟨0, 0, 1⟩, none⟩] 0 0).score = 0 + 100 ∧
      (updateBulletsAux [⟨⟨0, 0, 0⟩, ⟨0, 0, 1⟩⟩]
        [⟨⟨0, 0, 2⟩, none⟩, ⟨⟨0, 0, 1⟩, none⟩] 0 0).respawns = 0 + 1 ∧
      (updateBulletsAux [⟨⟨0, 0, 0⟩, ⟨0, 0, 1⟩⟩]
        [⟨⟨0, 0, 2⟩, none⟩, ⟨⟨0, 0, 1⟩, none⟩] 0 0).bullets = [] ∧
      (updateBulletsAux [⟨⟨0, 0, 0⟩, ⟨0, 0, 1⟩⟩]
        [⟨⟨0, 0, 2⟩, none⟩, ⟨⟨0, 0, 1⟩, none⟩] 0 0).balloons.length + 1 =
        ([⟨⟨0, 0, 2⟩, none⟩, ⟨⟨0, 0, 1⟩, none⟩] : List Balloon).length ∧
      ∀ (bs2 : List Bullet) (bls2 : List Balloon) (sc2 : ℤ) (rs2 : ℕ),
        ∃ k ≤ bs2.length,
          (updateBulletsAux bs2 bls2 sc2 rs2).respawns = rs2 + k ∧
          (updateBulletsAux bs2 bls2 sc2 rs2).score = sc2 + 100 * k :=
  hit_consumption ⟨⟨0, 0, 0⟩, ⟨0, 0, 1⟩⟩ [⟨⟨0, 0, 2⟩, none⟩, ⟨⟨0, 0, 1⟩, none⟩] 0 0
    (by norm_num [Vec3.add, Vec3.normSq])
    ⟨⟨⟨0, 0, 2⟩, none⟩, by simp, by norm_num [Vec3.add, Vec3.distSq]⟩
